import Mathlib

/-!
Shallow embedding of `parsedmarc/loganalytics.py`.

The module defines `LogAnalyticsConfig` (seven string settings),
`LogAnalyticsClient` (validated at construction), and two methods:
`publish_json` (one upload wrapped against `HttpResponseError`) and
`publish_results` (fresh credential and ingestion client, then two
gated uploads: aggregate, forensic).

Python exceptions are modelled by `Except PyError`.  The Azure SDK
(`ClientSecretCredential`, `LogsIngestionClient`, `upload`) is an
external collaborator, modelled by an `AzureEnv` record of outcome
functions.  `publish_results` returns a `PublishTrace` recording, in
addition to the final outcome, which constructor calls and which upload
calls were made at each of the two upload sites, so that counting
claims ("exactly one upload call") are statable.
-/

/-- Python exceptions that can escape this module: `LogAnalyticsException`
(the module's own class, carrying a message), a `KeyError` from a
subscript on the results dict, or any other exception propagating
unwrapped from the Azure SDK. -/
inductive PyError where
  | logAnalytics (msg : String)
  | keyError (key : String)
  | other (msg : String)
deriving DecidableEq

/-- The seven-field configuration bundle (`LogAnalyticsConfig`). -/
structure LogAnalyticsConfig where
  client_id : String
  client_secret : String
  tenant_id : String
  dce : String
  dcr_immutable_id : String
  dcr_aggregate_stream : String
  dcr_forensic_stream : String
deriving DecidableEq

/-- The publisher (`LogAnalyticsClient`): after construction it holds
only its configuration. -/
structure LogAnalyticsClient where
  conf : LogAnalyticsConfig
deriving DecidableEq

/-- The exact message raised by `LogAnalyticsClient.__init__` when a
setting is empty. -/
def invalidConfMsg : String :=
  "Invalid configuration. One or more required settings are missing."

/-- `LogAnalyticsClient.__init__`: stores the seven parameters in a
`LogAnalyticsConfig` and raises `LogAnalyticsException` when any of them
is falsy (for `str`, exactly the empty string). -/
def LogAnalyticsClient.init
    (client_id client_secret tenant_id dce dcr_immutable_id
      dcr_aggregate_stream dcr_forensic_stream : String) :
    Except PyError LogAnalyticsClient :=
  let conf : LogAnalyticsConfig :=
    ⟨client_id, client_secret, tenant_id, dce, dcr_immutable_id,
      dcr_aggregate_stream, dcr_forensic_stream⟩
  if conf.client_id = "" ∨ conf.client_secret = "" ∨ conf.tenant_id = "" ∨
      conf.dce = "" ∨ conf.dcr_immutable_id = "" ∨
      conf.dcr_aggregate_stream = "" ∨ conf.dcr_forensic_stream = "" then
    .error (.logAnalytics invalidConfMsg)
  else
    .ok ⟨conf⟩

/-- Outcome of one call to `LogsIngestionClient.upload`: success, an
`HttpResponseError` (with its text), or any other exception. -/
inductive UploadOutcome where
  | success
  | httpResponseError (msg : String)
  | otherError (msg : String)
deriving DecidableEq

/-- The Azure SDK as an environment: what each constructor or upload
call does.  `clientSecretCredential` takes (tenant id, client id,
client secret); `logsIngestionClient` takes the endpoint; `upload`
takes (rule id, stream name, records).  An `Except.error` models the
call raising an exception with that text. -/
structure AzureEnv (α : Type) where
  clientSecretCredential : String → String → String → Except String Unit
  logsIngestionClient : String → Except String Unit
  upload : String → String → List α → UploadOutcome

/-- One call to `LogsIngestionClient.upload`, with its arguments. -/
structure UploadCall (α : Type) where
  rule : String
  stream : String
  records : List α
deriving DecidableEq

/-- The `results` dict passed to `publish_results`.  `none` models the
key being absent (so that a subscript raises `KeyError`); `some`
models the key holding a list of records. -/
structure ResultsBundle (α : Type) where
  aggregate_reports : Option (List α)
  forensic_reports : Option (List α)
deriving DecidableEq

deriving instance DecidableEq for Except

/-- Everything observable about one `publish_results` call: the
`ClientSecretCredential` constructions (with their arguments), the
`LogsIngestionClient` constructions (with the endpoint), the upload
calls made from the aggregate statement and from the forensic
statement, and the overall outcome. -/
structure PublishTrace (α : Type) where
  credCalls : List (String × String × String)
  clientCalls : List String
  aggUploads : List (UploadCall α)
  forUploads : List (UploadCall α)
  outcome : Except PyError Unit
deriving DecidableEq

/-- The Python condition
`records and stream and len(records) > 0 and flag`
as a proposition: the list is truthy, the stream name is truthy, the
length check passes, and the flag is true. -/
def gate (records : List α) (stream : String) (flag : Bool) : Prop :=
  records ≠ [] ∧ stream ≠ "" ∧ records.length > 0 ∧ flag = true

instance [DecidableEq α] (records : List α) (stream : String) (flag : Bool) :
    Decidable (gate records stream flag) := by
  unfold gate; infer_instance

/-- `LogAnalyticsClient.publish_json`: calls `upload` on the ingestion
client with the configured rule id, the given stream and the given
records; an `HttpResponseError` is re-raised as `LogAnalyticsException`
with text "Upload failed: " followed by the error text, while any other
exception propagates unwrapped.  The first component records the call
that was made. -/
def LogAnalyticsClient.publish_json (c : LogAnalyticsClient)
    (env : AzureEnv α) (results : List α) (dcr_stream : String) :
    UploadCall α × Except PyError Unit :=
  (⟨c.conf.dcr_immutable_id, dcr_stream, results⟩,
    match env.upload c.conf.dcr_immutable_id dcr_stream results with
    | .success => .ok ()
    | .httpResponseError e => .error (.logAnalytics ("Upload failed: " ++ e))
    | .otherError e => .error (.other e))

/-- The forensic half of `publish_results`: subscript
`results['forensic_reports']` (raising `KeyError` when absent), then
gate on the records, the forensic stream name and `save_forensic`, and
upload when the gate passes. -/
def forensicStep [DecidableEq α] (c : LogAnalyticsClient) (env : AzureEnv α)
    (results : ResultsBundle α) (save_forensic : Bool)
    (credCalls : List (String × String × String)) (clientCalls : List String)
    (aggUps : List (UploadCall α)) : PublishTrace α :=
  match results.forensic_reports with
  | none => ⟨credCalls, clientCalls, aggUps, [], .error (.keyError "forensic_reports")⟩
  | some fors =>
    if gate fors c.conf.dcr_forensic_stream save_forensic then
      let r := c.publish_json env fors c.conf.dcr_forensic_stream
      ⟨credCalls, clientCalls, aggUps, [r.1], r.2⟩
    else
      ⟨credCalls, clientCalls, aggUps, [], .ok ()⟩

/-- `LogAnalyticsClient.publish_results`: build a fresh
`ClientSecretCredential` from (tenant id, client id, client secret) and
a fresh `LogsIngestionClient` on the configured endpoint, then run the
aggregate gate-and-upload statement followed by the forensic one.  An
exception anywhere aborts the rest of the call. -/
def LogAnalyticsClient.publish_results [DecidableEq α] (c : LogAnalyticsClient)
    (env : AzureEnv α) (results : ResultsBundle α)
    (save_aggregate save_forensic : Bool) : PublishTrace α :=
  let conf := c.conf
  let credCalls := [(conf.tenant_id, conf.client_id, conf.client_secret)]
  match env.clientSecretCredential conf.tenant_id conf.client_id conf.client_secret with
  | .error e => ⟨credCalls, [], [], [], .error (.other e)⟩
  | .ok () =>
    let clientCalls := [conf.dce]
    match env.logsIngestionClient conf.dce with
    | .error e => ⟨credCalls, clientCalls, [], [], .error (.other e)⟩
    | .ok () =>
      match results.aggregate_reports with
      | none => ⟨credCalls, clientCalls, [], [], .error (.keyError "aggregate_reports")⟩
      | some aggs =>
        if gate aggs conf.dcr_aggregate_stream save_aggregate then
          let r := c.publish_json env aggs conf.dcr_aggregate_stream
          match r.2 with
          | .error e => ⟨credCalls, clientCalls, [r.1], [], .error e⟩
          | .ok () => forensicStep c env results save_forensic credCalls clientCalls [r.1]
        else
          forensicStep c env results save_forensic credCalls clientCalls []

/-- Whether an error is the module's own `LogAnalyticsException` class
(as opposed to `KeyError` or an unwrapped foreign exception). -/
def PyError.isLogAnalyticsException : PyError → Bool
  | .logAnalytics _ => true
  | _ => false

/-! Equation lemmas: one per control path of `publish_json`,
`forensicStep` and `publish_results`, keyed on the environment's
outcome at each call. -/

lemma publish_json_fst (c : LogAnalyticsClient) (env : AzureEnv α)
    (results : List α) (dcr_stream : String) :
    (c.publish_json env results dcr_stream).1 =
      ⟨c.conf.dcr_immutable_id, dcr_stream, results⟩ := rfl

lemma publish_json_snd_success (c : LogAnalyticsClient) (env : AzureEnv α)
    (results : List α) (dcr_stream : String)
    (hu : env.upload c.conf.dcr_immutable_id dcr_stream results = .success) :
    (c.publish_json env results dcr_stream).2 = .ok () := by
  simp [LogAnalyticsClient.publish_json, hu]

lemma publish_json_snd_http (c : LogAnalyticsClient) (env : AzureEnv α)
    (results : List α) (dcr_stream : String) (e : String)
    (hu : env.upload c.conf.dcr_immutable_id dcr_stream results = .httpResponseError e) :
    (c.publish_json env results dcr_stream).2 =
      .error (.logAnalytics ("Upload failed: " ++ e)) := by
  simp [LogAnalyticsClient.publish_json, hu]

lemma publish_json_snd_other (c : LogAnalyticsClient) (env : AzureEnv α)
    (results : List α) (dcr_stream : String) (e : String)
    (hu : env.upload c.conf.dcr_immutable_id dcr_stream results = .otherError e) :
    (c.publish_json env results dcr_stream).2 = .error (.other e) := by
  simp [LogAnalyticsClient.publish_json, hu]

lemma forensicStep_eq_none [DecidableEq α] (c : LogAnalyticsClient)
    (env : AzureEnv α) (results : ResultsBundle α) (sf : Bool)
    (cc : List (String × String × String)) (clc : List String)
    (aggUps : List (UploadCall α))
    (hk : results.forensic_reports = none) :
    forensicStep c env results sf cc clc aggUps =
      ⟨cc, clc, aggUps, [], .error (.keyError "forensic_reports")⟩ := by
  simp [forensicStep, hk]

lemma forensicStep_eq_gate_true [DecidableEq α] (c : LogAnalyticsClient)
    (env : AzureEnv α) (results : ResultsBundle α) (sf : Bool)
    (cc : List (String × String × String)) (clc : List String)
    (aggUps : List (UploadCall α)) (fors : List α)
    (hk : results.forensic_reports = some fors)
    (hg : gate fors c.conf.dcr_forensic_stream sf) :
    forensicStep c env results sf cc clc aggUps =
      ⟨cc, clc, aggUps, [⟨c.conf.dcr_immutable_id, c.conf.dcr_forensic_stream, fors⟩],
        (c.publish_json env fors c.conf.dcr_forensic_stream).2⟩ := by
  simp [forensicStep, hk, hg, publish_json_fst]

lemma forensicStep_eq_gate_false [DecidableEq α] (c : LogAnalyticsClient)
    (env : AzureEnv α) (results : ResultsBundle α) (sf : Bool)
    (cc : List (String × String × String)) (clc : List String)
    (aggUps : List (UploadCall α)) (fors : List α)
    (hk : results.forensic_reports = some fors)
    (hg : ¬ gate fors c.conf.dcr_forensic_stream sf) :
    forensicStep c env results sf cc clc aggUps =
      ⟨cc, clc, aggUps, [], .ok ()⟩ := by
  simp [forensicStep, hk, hg]

lemma publish_results_eq_cred_error [DecidableEq α] (c : LogAnalyticsClient)
    (env : AzureEnv α) (results : ResultsBundle α) (sa sf : Bool) (e : String)
    (hc : env.clientSecretCredential c.conf.tenant_id c.conf.client_id
            c.conf.client_secret = .error e) :
    c.publish_results env results sa sf =
      ⟨[(c.conf.tenant_id, c.conf.client_id, c.conf.client_secret)], [], [], [],
        .error (.other e)⟩ := by
  simp [LogAnalyticsClient.publish_results, hc]

lemma publish_results_eq_client_error [DecidableEq α] (c : LogAnalyticsClient)
    (env : AzureEnv α) (results : ResultsBundle α) (sa sf : Bool) (e : String)
    (hc : env.clientSecretCredential c.conf.tenant_id c.conf.client_id
            c.conf.client_secret = .ok ())
    (hl : env.logsIngestionClient c.conf.dce = .error e) :
    c.publish_results env results sa sf =
      ⟨[(c.conf.tenant_id, c.conf.client_id, c.conf.client_secret)], [c.conf.dce],
        [], [], .error (.other e)⟩ := by
  simp [LogAnalyticsClient.publish_results, hc, hl]

lemma publish_results_eq_agg_none [DecidableEq α] (c : LogAnalyticsClient)
    (env : AzureEnv α) (results : ResultsBundle α) (sa sf : Bool)
    (hc : env.clientSecretCredential c.conf.tenant_id c.conf.client_id
            c.conf.client_secret = .ok ())
    (hl : env.logsIngestionClient c.conf.dce = .ok ())
    (hk : results.aggregate_reports = none) :
    c.publish_results env results sa sf =
      ⟨[(c.conf.tenant_id, c.conf.client_id, c.conf.client_secret)], [c.conf.dce],
        [], [], .error (.keyError "aggregate_reports")⟩ := by
  simp [LogAnalyticsClient.publish_results, hc, hl, hk]

lemma publish_results_eq_gate_false [DecidableEq α] (c : LogAnalyticsClient)
    (env : AzureEnv α) (results : ResultsBundle α) (sa sf : Bool) (aggs : List α)
    (hc : env.clientSecretCredential c.conf.tenant_id c.conf.client_id
            c.conf.client_secret = .ok ())
    (hl : env.logsIngestionClient c.conf.dce = .ok ())
    (hk : results.aggregate_reports = some aggs)
    (hg : ¬ gate aggs c.conf.dcr_aggregate_stream sa) :
    c.publish_results env results sa sf =
      forensicStep c env results sf
        [(c.conf.tenant_id, c.conf.client_id, c.conf.client_secret)]
        [c.conf.dce] [] := by
  simp [LogAnalyticsClient.publish_results, hc, hl, hk, hg]

lemma publish_results_eq_upload_success [DecidableEq α] (c : LogAnalyticsClient)
    (env : AzureEnv α) (results : ResultsBundle α) (sa sf : Bool) (aggs : List α)
    (hc : env.clientSecretCredential c.conf.tenant_id c.conf.client_id
            c.conf.client_secret = .ok ())
    (hl : env.logsIngestionClient c.conf.dce = .ok ())
    (hk : results.aggregate_reports = some aggs)
    (hg : gate aggs c.conf.dcr_aggregate_stream sa)
    (hu : env.upload c.conf.dcr_immutable_id c.conf.dcr_aggregate_stream aggs
            = .success) :
    c.publish_results env results sa sf =
      forensicStep c env results sf
        [(c.conf.tenant_id, c.conf.client_id, c.conf.client_secret)]
        [c.conf.dce]
        [⟨c.conf.dcr_immutable_id, c.conf.dcr_aggregate_stream, aggs⟩] := by
  simp [LogAnalyticsClient.publish_results, hc, hl, hk, hg,
    publish_json_snd_success c env aggs c.conf.dcr_aggregate_stream hu,
    publish_json_fst]

lemma publish_results_eq_upload_http [DecidableEq α] (c : LogAnalyticsClient)
    (env : AzureEnv α) (results : ResultsBundle α) (sa sf : Bool) (aggs : List α)
    (e : String)
    (hc : env.clientSecretCredential c.conf.tenant_id c.conf.client_id
            c.conf.client_secret = .ok ())
    (hl : env.logsIngestionClient c.conf.dce = .ok ())
    (hk : results.aggregate_reports = some aggs)
    (hg : gate aggs c.conf.dcr_aggregate_stream sa)
    (hu : env.upload c.conf.dcr_immutable_id c.conf.dcr_aggregate_stream aggs
            = .httpResponseError e) :
    c.publish_results env results sa sf =
      ⟨[(c.conf.tenant_id, c.conf.client_id, c.conf.client_secret)], [c.conf.dce],
        [⟨c.conf.dcr_immutable_id, c.conf.dcr_aggregate_stream, aggs⟩], [],
        .error (.logAnalytics ("Upload failed: " ++ e))⟩ := by
  simp [LogAnalyticsClient.publish_results, hc, hl, hk, hg,
    publish_json_snd_http c env aggs c.conf.dcr_aggregate_stream e hu,
    publish_json_fst]

lemma publish_results_eq_upload_other [DecidableEq α] (c : LogAnalyticsClient)
    (env : AzureEnv α) (results : ResultsBundle α) (sa sf : Bool) (aggs : List α)
    (e : String)
    (hc : env.clientSecretCredential c.conf.tenant_id c.conf.client_id
            c.conf.client_secret = .ok ())
    (hl : env.logsIngestionClient c.conf.dce = .ok ())
    (hk : results.aggregate_reports = some aggs)
    (hg : gate aggs c.conf.dcr_aggregate_stream sa)
    (hu : env.upload c.conf.dcr_immutable_id c.conf.dcr_aggregate_stream aggs
            = .otherError e) :
    c.publish_results env results sa sf =
      ⟨[(c.conf.tenant_id, c.conf.client_id, c.conf.client_secret)], [c.conf.dce],
        [⟨c.conf.dcr_immutable_id, c.conf.dcr_aggregate_stream, aggs⟩], [],
        .error (.other e)⟩ := by
  simp [LogAnalyticsClient.publish_results, hc, hl, hk, hg,
    publish_json_snd_other c env aggs c.conf.dcr_aggregate_stream e hu,
    publish_json_fst]

/-! Component lemmas: what each step leaves untouched, and the possible
shapes of the upload-call lists. -/

lemma forensicStep_credCalls [DecidableEq α] (c : LogAnalyticsClient)
    (env : AzureEnv α) (results : ResultsBundle α) (sf : Bool)
    (cc : List (String × String × String)) (clc : List String)
    (aggUps : List (UploadCall α)) :
    (forensicStep c env results sf cc clc aggUps).credCalls = cc := by
  cases hk : results.forensic_reports with
  | none => rw [forensicStep_eq_none c env results sf cc clc aggUps hk]
  | some fors =>
    by_cases hg : gate fors c.conf.dcr_forensic_stream sf
    · rw [forensicStep_eq_gate_true c env results sf cc clc aggUps fors hk hg]
    · rw [forensicStep_eq_gate_false c env results sf cc clc aggUps fors hk hg]

lemma forensicStep_clientCalls [DecidableEq α] (c : LogAnalyticsClient)
    (env : AzureEnv α) (results : ResultsBundle α) (sf : Bool)
    (cc : List (String × String × String)) (clc : List String)
    (aggUps : List (UploadCall α)) :
    (forensicStep c env results sf cc clc aggUps).clientCalls = clc := by
  cases hk : results.forensic_reports with
  | none => rw [forensicStep_eq_none c env results sf cc clc aggUps hk]
  | some fors =>
    by_cases hg : gate fors c.conf.dcr_forensic_stream sf
    · rw [forensicStep_eq_gate_true c env results sf cc clc aggUps fors hk hg]
    · rw [forensicStep_eq_gate_false c env results sf cc clc aggUps fors hk hg]

lemma forensicStep_aggUploads [DecidableEq α] (c : LogAnalyticsClient)
    (env : AzureEnv α) (results : ResultsBundle α) (sf : Bool)
    (cc : List (String × String × String)) (clc : List String)
    (aggUps : List (UploadCall α)) :
    (forensicStep c env results sf cc clc aggUps).aggUploads = aggUps := by
  cases hk : results.forensic_reports with
  | none => rw [forensicStep_eq_none c env results sf cc clc aggUps hk]
  | some fors =>
    by_cases hg : gate fors c.conf.dcr_forensic_stream sf
    · rw [forensicStep_eq_gate_true c env results sf cc clc aggUps fors hk hg]
    · rw [forensicStep_eq_gate_false c env results sf cc clc aggUps fors hk hg]

lemma forensicStep_forUploads_shape [DecidableEq α] (c : LogAnalyticsClient)
    (env : AzureEnv α) (results : ResultsBundle α) (sf : Bool)
    (cc : List (String × String × String)) (clc : List String)
    (aggUps : List (UploadCall α)) :
    (forensicStep c env results sf cc clc aggUps).forUploads = [] ∨
    ∃ fors, results.forensic_reports = some fors ∧
      gate fors c.conf.dcr_forensic_stream sf ∧
      (forensicStep c env results sf cc clc aggUps).forUploads =
        [⟨c.conf.dcr_immutable_id, c.conf.dcr_forensic_stream, fors⟩] := by
  cases hk : results.forensic_reports with
  | none => left; rw [forensicStep_eq_none c env results sf cc clc aggUps hk]
  | some fors =>
    by_cases hg : gate fors c.conf.dcr_forensic_stream sf
    · right
      exact ⟨fors, rfl, hg,
        by rw [forensicStep_eq_gate_true c env results sf cc clc aggUps fors hk hg]⟩
    · left; rw [forensicStep_eq_gate_false c env results sf cc clc aggUps fors hk hg]

/-- Every `publish_results` call either made no upload at the aggregate
statement, or made exactly the one upload its gate licenses. -/
lemma publish_results_aggUploads_shape [DecidableEq α] (c : LogAnalyticsClient)
    (env : AzureEnv α) (results : ResultsBundle α) (sa sf : Bool) :
    (c.publish_results env results sa sf).aggUploads = [] ∨
    ∃ aggs, results.aggregate_reports = some aggs ∧
      gate aggs c.conf.dcr_aggregate_stream sa ∧
      (c.publish_results env results sa sf).aggUploads =
        [⟨c.conf.dcr_immutable_id, c.conf.dcr_aggregate_stream, aggs⟩] := by
  cases hc : env.clientSecretCredential c.conf.tenant_id c.conf.client_id c.conf.client_secret with
  | error e => left; rw [publish_results_eq_cred_error c env results sa sf e hc]
  | ok u =>
    cases u
    cases hl : env.logsIngestionClient c.conf.dce with
    | error e => left; rw [publish_results_eq_client_error c env results sa sf e hc hl]
    | ok u2 =>
      cases u2
      cases hk : results.aggregate_reports with
      | none => left; rw [publish_results_eq_agg_none c env results sa sf hc hl hk]
      | some aggs =>
        by_cases hg : gate aggs c.conf.dcr_aggregate_stream sa
        · right
          refine ⟨aggs, rfl, hg, ?_⟩
          cases hu : env.upload c.conf.dcr_immutable_id c.conf.dcr_aggregate_stream aggs with
          | success =>
            rw [publish_results_eq_upload_success c env results sa sf aggs hc hl hk hg hu]
            exact forensicStep_aggUploads c env results sf _ _ _
          | httpResponseError e =>
            rw [publish_results_eq_upload_http c env results sa sf aggs e hc hl hk hg hu]
          | otherError e =>
            rw [publish_results_eq_upload_other c env results sa sf aggs e hc hl hk hg hu]
        · left
          rw [publish_results_eq_gate_false c env results sa sf aggs hc hl hk hg]
          exact forensicStep_aggUploads c env results sf _ _ _

/-- Every `publish_results` call either made no upload at the forensic
statement, or made exactly the one upload its gate licenses. -/
lemma publish_results_forUploads_shape [DecidableEq α] (c : LogAnalyticsClient)
    (env : AzureEnv α) (results : ResultsBundle α) (sa sf : Bool) :
    (c.publish_results env results sa sf).forUploads = [] ∨
    ∃ fors, results.forensic_reports = some fors ∧
      gate fors c.conf.dcr_forensic_stream sf ∧
      (c.publish_results env results sa sf).forUploads =
        [⟨c.conf.dcr_immutable_id, c.conf.dcr_forensic_stream, fors⟩] := by
  cases hc : env.clientSecretCredential c.conf.tenant_id c.conf.client_id c.conf.client_secret with
  | error e => left; rw [publish_results_eq_cred_error c env results sa sf e hc]
  | ok u =>
    cases u
    cases hl : env.logsIngestionClient c.conf.dce with
    | error e => left; rw [publish_results_eq_client_error c env results sa sf e hc hl]
    | ok u2 =>
      cases u2
      cases hk : results.aggregate_reports with
      | none => left; rw [publish_results_eq_agg_none c env results sa sf hc hl hk]
      | some aggs =>
        by_cases hg : gate aggs c.conf.dcr_aggregate_stream sa
        · cases hu : env.upload c.conf.dcr_immutable_id c.conf.dcr_aggregate_stream aggs with
          | success =>
            rw [publish_results_eq_upload_success c env results sa sf aggs hc hl hk hg hu]
            exact forensicStep_forUploads_shape c env results sf _ _ _
          | httpResponseError e =>
            left
            rw [publish_results_eq_upload_http c env results sa sf aggs e hc hl hk hg hu]
          | otherError e =>
            left
            rw [publish_results_eq_upload_other c env results sa sf aggs e hc hl hk hg hu]
        · rw [publish_results_eq_gate_false c env results sa sf aggs hc hl hk hg]
          exact forensicStep_forUploads_shape c env results sf _ _ _

/-- The credential-construction call list is the same singleton on every
path of `publish_results`. -/
lemma publish_results_credCalls [DecidableEq α] (c : LogAnalyticsClient)
    (env : AzureEnv α) (results : ResultsBundle α) (sa sf : Bool) :
    (c.publish_results env results sa sf).credCalls =
      [(c.conf.tenant_id, c.conf.client_id, c.conf.client_secret)] := by
  cases hc : env.clientSecretCredential c.conf.tenant_id c.conf.client_id c.conf.client_secret with
  | error e => rw [publish_results_eq_cred_error c env results sa sf e hc]
  | ok u =>
    cases u
    cases hl : env.logsIngestionClient c.conf.dce with
    | error e => rw [publish_results_eq_client_error c env results sa sf e hc hl]
    | ok u2 =>
      cases u2
      cases hk : results.aggregate_reports with
      | none => rw [publish_results_eq_agg_none c env results sa sf hc hl hk]
      | some aggs =>
        by_cases hg : gate aggs c.conf.dcr_aggregate_stream sa
        · cases hu : env.upload c.conf.dcr_immutable_id c.conf.dcr_aggregate_stream aggs with
          | success =>
            rw [publish_results_eq_upload_success c env results sa sf aggs hc hl hk hg hu]
            exact forensicStep_credCalls c env results sf _ _ _
          | httpResponseError e =>
            rw [publish_results_eq_upload_http c env results sa sf aggs e hc hl hk hg hu]
          | otherError e =>
            rw [publish_results_eq_upload_other c env results sa sf aggs e hc hl hk hg hu]
        · rw [publish_results_eq_gate_false c env results sa sf aggs hc hl hk hg]
          exact forensicStep_credCalls c env results sf _ _ _

/-! Concrete instances used to exercise the theorems. -/

/-- A fully populated configuration. -/
def sampleConf : LogAnalyticsConfig :=
  ⟨"cid", "csec", "tid", "endpoint", "ruleid", "aggstream", "forstream"⟩

/-- A publisher holding `sampleConf`. -/
def sampleClient : LogAnalyticsClient := ⟨sampleConf⟩

/-- An environment where every Azure call succeeds. -/
def okEnv : AzureEnv Nat :=
  ⟨fun _ _ _ => .ok (), fun _ => .ok (), fun _ _ _ => .success⟩

/-- An environment where every upload raises `HttpResponseError` with
the given text. -/
def httpFailEnv (e : String) : AzureEnv Nat :=
  ⟨fun _ _ _ => .ok (), fun _ => .ok (), fun _ _ _ => .httpResponseError e⟩

/-- An environment where every upload raises a non-HTTP exception with
the given text. -/
def otherFailEnv (e : String) : AzureEnv Nat :=
  ⟨fun _ _ _ => .ok (), fun _ => .ok (), fun _ _ _ => .otherError e⟩

lemma string_data_append (s t : String) : (s ++ t).data = s.data ++ t.data := rfl

/-- The construction-time message is never equal to an upload-failure
message, whatever the underlying error text. -/
lemma invalidConfMsg_ne_upload_msg (e : String) :
    invalidConfMsg ≠ "Upload failed: " ++ e := by
  intro h
  have h1 : invalidConfMsg.data = "Upload failed: ".data ++ e.data := by
    rw [h, string_data_append]
  have h2 := congrArg (List.take 14) h1
  rw [List.take_append_of_le_length (by decide)] at h2
  exact absurd h2 (by decide)

/-! The claims. -/

/-- Claim C1: constructing the publisher from seven string parameters
fails with the `LogAnalyticsException` naming one or more missing
required settings when any parameter is empty, and succeeds (storing
the seven parameters) when all seven are non-empty. -/
theorem C1_init_validates (a b t d r s f : String) :
    ((a = "" ∨ b = "" ∨ t = "" ∨ d = "" ∨ r = "" ∨ s = "" ∨ f = "") →
      LogAnalyticsClient.init a b t d r s f =
        .error (.logAnalytics invalidConfMsg)) ∧
    (a ≠ "" → b ≠ "" → t ≠ "" → d ≠ "" → r ≠ "" → s ≠ "" → f ≠ "" →
      LogAnalyticsClient.init a b t d r s f = .ok ⟨⟨a, b, t, d, r, s, f⟩⟩) := by
  constructor
  · intro h
    simp only [LogAnalyticsClient.init]
    rw [if_pos h]
  · intro h1 h2 h3 h4 h5 h6 h7
    simp only [LogAnalyticsClient.init]
    rw [if_neg]
    simp [h1, h2, h3, h4, h5, h6, h7]

/-- Claim C1 witness: one empty parameter fails, all non-empty succeeds. -/
theorem C1_witness :
    LogAnalyticsClient.init "" "b" "t" "d" "r" "s" "f" =
      .error (.logAnalytics invalidConfMsg) ∧
    LogAnalyticsClient.init "a" "b" "t" "d" "r" "s" "f" =
      .ok ⟨⟨"a", "b", "t", "d", "r", "s", "f"⟩⟩ :=
  ⟨(C1_init_validates "" "b" "t" "d" "r" "s" "f").1 (Or.inl rfl),
    (C1_init_validates "a" "b" "t" "d" "r" "s" "f").2 (by decide) (by decide)
      (by decide) (by decide) (by decide) (by decide) (by decide)⟩

/-- Claim C2: with a non-empty aggregate list, a configured aggregate
stream and `save_aggregate = true`, exactly one aggregate upload call is
made, with the aggregate stream name and the aggregate records as
arguments; with `save_aggregate = false`, no aggregate upload call is
made whatever the environment or the bundle's content. -/
theorem C2_aggregate_upload_exactly_once [DecidableEq α] (c : LogAnalyticsClient)
    (env : AzureEnv α) (results : ResultsBundle α) (aggs : List α) (sf : Bool)
    (hcred : env.clientSecretCredential c.conf.tenant_id c.conf.client_id
              c.conf.client_secret = .ok ())
    (hcli : env.logsIngestionClient c.conf.dce = .ok ())
    (hkey : results.aggregate_reports = some aggs)
    (hne : aggs ≠ [])
    (hstream : c.conf.dcr_aggregate_stream ≠ "") :
    (c.publish_results env results true sf).aggUploads =
      [⟨c.conf.dcr_immutable_id, c.conf.dcr_aggregate_stream, aggs⟩] ∧
    ∀ (env2 : AzureEnv α) (results2 : ResultsBundle α) (sf2 : Bool),
      (c.publish_results env2 results2 false sf2).aggUploads = [] := by
  constructor
  · have hg : gate aggs c.conf.dcr_aggregate_stream true :=
      ⟨hne, hstream, List.length_pos.mpr hne, rfl⟩
    cases hu : env.upload c.conf.dcr_immutable_id c.conf.dcr_aggregate_stream aggs with
    | success =>
      rw [publish_results_eq_upload_success c env results true sf aggs hcred hcli hkey hg hu]
      exact forensicStep_aggUploads c env results sf _ _ _
    | httpResponseError e =>
      rw [publish_results_eq_upload_http c env results true sf aggs e hcred hcli hkey hg hu]
    | otherError e =>
      rw [publish_results_eq_upload_other c env results true sf aggs e hcred hcli hkey hg hu]
  · intro env2 results2 sf2
    rcases publish_results_aggUploads_shape c env2 results2 false sf2 with h | ⟨aggs2, _, hg, _⟩
    · exact h
    · exact absurd hg.2.2.2 (by decide)

/-- Claim C2 witness: the concrete sample publisher uploads the
aggregate records exactly once when all gate conditions hold. -/
theorem C2_witness :
    (sampleClient.publish_results okEnv ⟨some [0], some []⟩ true true).aggUploads =
      [⟨"ruleid", "aggstream", [0]⟩] :=
  (C2_aggregate_upload_exactly_once sampleClient okEnv ⟨some [0], some []⟩ [0] true
    rfl rfl rfl (by decide) (by decide)).1

/-- Claim C3: when the ingestion client's upload raises a response
error at the aggregate step, `publish_results` fails with the
`LogAnalyticsException` whose message is "Upload failed: " followed by
the original error text, and the forensic upload is never attempted in
that call. -/
theorem C3_upload_error_wraps_and_aborts [DecidableEq α] (c : LogAnalyticsClient)
    (env : AzureEnv α) (results : ResultsBundle α) (aggs : List α) (sf : Bool)
    (e : String)
    (hcred : env.clientSecretCredential c.conf.tenant_id c.conf.client_id
              c.conf.client_secret = .ok ())
    (hcli : env.logsIngestionClient c.conf.dce = .ok ())
    (hkey : results.aggregate_reports = some aggs)
    (hne : aggs ≠ [])
    (hstream : c.conf.dcr_aggregate_stream ≠ "")
    (hup : env.upload c.conf.dcr_immutable_id c.conf.dcr_aggregate_stream aggs
            = .httpResponseError e) :
    (c.publish_results env results true sf).outcome =
      .error (.logAnalytics ("Upload failed: " ++ e)) ∧
    (c.publish_results env results true sf).forUploads = [] := by
  have hg : gate aggs c.conf.dcr_aggregate_stream true :=
    ⟨hne, hstream, List.length_pos.mpr hne, rfl⟩
  rw [publish_results_eq_upload_http c env results true sf aggs e hcred hcli hkey hg hup]
  exact ⟨rfl, rfl⟩

/-- Claim C3 witness: a failing upload on the sample publisher, with
forensic records present and enabled, wraps the error text and makes no
forensic upload. -/
theorem C3_witness :
    (sampleClient.publish_results (httpFailEnv "boom") ⟨some [0], some [1]⟩ true true).outcome =
      .error (.logAnalytics "Upload failed: boom") ∧
    (sampleClient.publish_results (httpFailEnv "boom") ⟨some [0], some [1]⟩ true true).forUploads = [] :=
  C3_upload_error_wraps_and_aborts sampleClient (httpFailEnv "boom")
    ⟨some [0], some [1]⟩ [0] true "boom" rfl rfl rfl (by decide) (by decide) rfl

/-- Claim C4: with the forensic stream name set to the empty string, a
publish call with non-empty forensic records and `save_forensic = true`
makes no forensic upload: the empty stream name fails the gate even
though the flag is true. -/
theorem C4_empty_forensic_stream_no_upload [DecidableEq α] (c : LogAnalyticsClient)
    (env : AzureEnv α) (results : ResultsBundle α) (fors : List α) (sa : Bool)
    (hstream : c.conf.dcr_forensic_stream = "")
    (hkey : results.forensic_reports = some fors)
    (hne : fors ≠ []) :
    (c.publish_results env results sa true).forUploads = [] := by
  rcases publish_results_forUploads_shape c env results sa true with h | ⟨fors2, _, hg, _⟩
  · exact h
  · exact absurd hstream hg.2.1

/-- Claim C4 witness: a publisher whose forensic stream is empty makes
no forensic upload on non-empty forensic records with the flag true. -/
theorem C4_witness :
    ((⟨⟨"cid", "csec", "tid", "endpoint", "ruleid", "aggstream", ""⟩⟩ :
        LogAnalyticsClient).publish_results okEnv ⟨some [], some [1]⟩ true true).forUploads = [] :=
  C4_empty_forensic_stream_no_upload ⟨⟨"cid", "csec", "tid", "endpoint", "ruleid", "aggstream", ""⟩⟩
    okEnv ⟨some [], some [1]⟩ [1] true rfl rfl (by decide)

/-- Claim C5: with an empty aggregate list (so the aggregate statement
does nothing), the forensic statement applies the same gate condition
to its own inputs: for every combination of forensic records and flag,
the forensic upload is made, exactly once and with the forensic stream
name and records, precisely when the forensic gate holds. -/
theorem C5_forensic_gate_independent [DecidableEq α] (c : LogAnalyticsClient)
    (env : AzureEnv α) (results : ResultsBundle α) (fors : List α) (sa sf : Bool)
    (hcred : env.clientSecretCredential c.conf.tenant_id c.conf.client_id
              c.conf.client_secret = .ok ())
    (hcli : env.logsIngestionClient c.conf.dce = .ok ())
    (hagg : results.aggregate_reports = some ([] : List α))
    (hfor : results.forensic_reports = some fors) :
    (c.publish_results env results sa sf).forUploads =
      if gate fors c.conf.dcr_forensic_stream sf
      then [⟨c.conf.dcr_immutable_id, c.conf.dcr_forensic_stream, fors⟩]
      else [] := by
  have hgA : ¬ gate ([] : List α) c.conf.dcr_aggregate_stream sa := by
    simp [gate]
  rw [publish_results_eq_gate_false c env results sa sf [] hcred hcli hagg hgA]
  by_cases hg : gate fors c.conf.dcr_forensic_stream sf
  · rw [forensicStep_eq_gate_true c env results sf _ _ _ fors hfor hg, if_pos hg]
  · rw [forensicStep_eq_gate_false c env results sf _ _ _ fors hfor hg, if_neg hg]

/-- Claim C5 witness: with aggregate empty, the sample publisher makes
exactly the forensic upload when the gate holds. -/
theorem C5_witness :
    (sampleClient.publish_results okEnv ⟨some [], some [1]⟩ true true).forUploads =
      if gate [1] sampleClient.conf.dcr_forensic_stream true
      then [⟨sampleClient.conf.dcr_immutable_id, sampleClient.conf.dcr_forensic_stream, [1]⟩]
      else [] :=
  C5_forensic_gate_independent sampleClient okEnv ⟨some [], some [1]⟩ [1] true true
    rfl rfl rfl rfl

/-- Claim C6: with an empty aggregate list in the bundle, no aggregate
upload call is made, whatever the flags, streams and environment. -/
theorem C6_empty_aggregate_no_upload [DecidableEq α] (c : LogAnalyticsClient)
    (env : AzureEnv α) (results : ResultsBundle α) (sa sf : Bool)
    (hkey : results.aggregate_reports = some ([] : List α)) :
    (c.publish_results env results sa sf).aggUploads = [] := by
  rcases publish_results_aggUploads_shape c env results sa sf with h | ⟨aggs, hk2, hg, _⟩
  · exact h
  · exact absurd (Option.some.inj (hkey.symm.trans hk2)).symm hg.1

/-- Claim C6 witness: empty aggregate list, flag true, stream
configured, still no aggregate upload. -/
theorem C6_witness :
    (sampleClient.publish_results okEnv ⟨some [], some []⟩ true true).aggUploads = [] :=
  C6_empty_aggregate_no_upload sampleClient okEnv ⟨some [], some []⟩ true true rfl

lemma publish_results_clientCalls_of_cred_ok [DecidableEq α] (c : LogAnalyticsClient)
    (env : AzureEnv α) (results : ResultsBundle α) (sa sf : Bool)
    (hc : env.clientSecretCredential c.conf.tenant_id c.conf.client_id
            c.conf.client_secret = .ok ()) :
    (c.publish_results env results sa sf).clientCalls = [c.conf.dce] := by
  cases hl : env.logsIngestionClient c.conf.dce with
  | error e => rw [publish_results_eq_client_error c env results sa sf e hc hl]
  | ok u =>
    cases u
    cases hk : results.aggregate_reports with
    | none => rw [publish_results_eq_agg_none c env results sa sf hc hl hk]
    | some aggs =>
      by_cases hg : gate aggs c.conf.dcr_aggregate_stream sa
      · cases hu : env.upload c.conf.dcr_immutable_id c.conf.dcr_aggregate_stream aggs with
        | success =>
          rw [publish_results_eq_upload_success c env results sa sf aggs hc hl hk hg hu]
          exact forensicStep_clientCalls c env results sf _ _ _
        | httpResponseError e =>
          rw [publish_results_eq_upload_http c env results sa sf aggs e hc hl hk hg hu]
        | otherError e =>
          rw [publish_results_eq_upload_other c env results sa sf aggs e hc hl hk hg hu]
      · rw [publish_results_eq_gate_false c env results sa sf aggs hc hl hk hg]
        exact forensicStep_clientCalls c env results sf _ _ _

/-- Claim C7: every publish call records exactly one credential
construction with (tenant id, client id, client secret) and, when it
succeeds, exactly one ingestion-client construction on the configured
endpoint; when either construction raises, no upload call has been
made.  The publisher value itself is immutable, so its stored
configuration is unchanged by the call. -/
theorem C7_fresh_credential_per_call [DecidableEq α] (c : LogAnalyticsClient)
    (env : AzureEnv α) (results : ResultsBundle α) (sa sf : Bool) :
    (c.publish_results env results sa sf).credCalls =
      [(c.conf.tenant_id, c.conf.client_id, c.conf.client_secret)] ∧
    (env.clientSecretCredential c.conf.tenant_id c.conf.client_id
        c.conf.client_secret = .ok () →
      (c.publish_results env results sa sf).clientCalls = [c.conf.dce]) ∧
    (∀ e, env.clientSecretCredential c.conf.tenant_id c.conf.client_id
        c.conf.client_secret = .error e →
      (c.publish_results env results sa sf).clientCalls = [] ∧
      (c.publish_results env results sa sf).aggUploads = [] ∧
      (c.publish_results env results sa sf).forUploads = []) ∧
    (∀ e, env.clientSecretCredential c.conf.tenant_id c.conf.client_id
        c.conf.client_secret = .ok () →
      env.logsIngestionClient c.conf.dce = .error e →
      (c.publish_results env results sa sf).aggUploads = [] ∧
      (c.publish_results env results sa sf).forUploads = []) := by
  refine ⟨publish_results_credCalls c env results sa sf, ?_, ?_, ?_⟩
  · intro hc
    exact publish_results_clientCalls_of_cred_ok c env results sa sf hc
  · intro e hc
    rw [publish_results_eq_cred_error c env results sa sf e hc]
    exact ⟨rfl, rfl, rfl⟩
  · intro e hc hl
    rw [publish_results_eq_client_error c env results sa sf e hc hl]
    exact ⟨rfl, rfl⟩

/-- Claim C7 witness: on a successful run the sample publisher shows
exactly one credential construction and one client construction. -/
theorem C7_witness :
    (sampleClient.publish_results okEnv ⟨some [0], some []⟩ true true).credCalls =
      [("tid", "cid", "csec")] ∧
    (sampleClient.publish_results okEnv ⟨some [0], some []⟩ true true).clientCalls =
      ["endpoint"] :=
  ⟨(C7_fresh_credential_per_call sampleClient okEnv ⟨some [0], some []⟩ true true).1,
    (C7_fresh_credential_per_call sampleClient okEnv ⟨some [0], some []⟩ true true).2.1 rfl⟩

/-- Claim C8 counterexample: with the `forensic_reports` key absent but
the aggregate gate passing, publish does fail with a `KeyError`, yet
the aggregate upload has already been made, so the failure is not
"before any upload". -/
theorem C8_counterexample :
    (sampleClient.publish_results okEnv ⟨some [0], none⟩ true false).outcome =
      .error (.keyError "forensic_reports") ∧
    (sampleClient.publish_results okEnv ⟨some [0], none⟩ true false).aggUploads ≠ [] := by
  decide

/-- Claim C8, amended: each gate subscripts its key unconditionally, so
an absent key makes publish fail with a `KeyError` even when the
corresponding enable flag is false; when `aggregate_reports` is absent
the failure precedes every upload, but when only `forensic_reports` is
absent the aggregate upload (if its gate passed) has already been
made. -/
theorem C8_absent_key_keyerror [DecidableEq α] (c : LogAnalyticsClient)
    (env : AzureEnv α) (results : ResultsBundle α) (sa sf : Bool)
    (hcred : env.clientSecretCredential c.conf.tenant_id c.conf.client_id
              c.conf.client_secret = .ok ())
    (hcli : env.logsIngestionClient c.conf.dce = .ok ()) :
    (results.aggregate_reports = none →
      (c.publish_results env results sa sf).outcome =
        .error (.keyError "aggregate_reports") ∧
      (c.publish_results env results sa sf).aggUploads = [] ∧
      (c.publish_results env results sa sf).forUploads = []) ∧
    (∀ aggs, results.aggregate_reports = some aggs →
      results.forensic_reports = none →
      (∀ st rs, env.upload c.conf.dcr_immutable_id st rs = .success) →
      (c.publish_results env results sa sf).outcome =
        .error (.keyError "forensic_reports")) := by
  constructor
  · intro hk
    rw [publish_results_eq_agg_none c env results sa sf hcred hcli hk]
    exact ⟨rfl, rfl, rfl⟩
  · intro aggs hk hf hup
    by_cases hg : gate aggs c.conf.dcr_aggregate_stream sa
    · rw [publish_results_eq_upload_success c env results sa sf aggs hcred hcli hk hg
        (hup c.conf.dcr_aggregate_stream aggs)]
      rw [forensicStep_eq_none c env results sf _ _ _ hf]
    · rw [publish_results_eq_gate_false c env results sa sf aggs hcred hcli hk hg]
      rw [forensicStep_eq_none c env results sf _ _ _ hf]

/-- Claim C8 amended witness: an absent aggregate key fails with its
`KeyError` and no upload at all. -/
theorem C8_witness :
    (sampleClient.publish_results okEnv ⟨none, some []⟩ true true).outcome =
      .error (.keyError "aggregate_reports") ∧
    (sampleClient.publish_results okEnv ⟨none, some []⟩ true true).aggUploads = [] ∧
    (sampleClient.publish_results okEnv ⟨none, some []⟩ true true).forUploads = [] :=
  (C8_absent_key_keyerror sampleClient okEnv ⟨none, some []⟩ true true rfl rfl).1 rfl

/-- Claim C9: only an `HttpResponseError` from the upload is wrapped as
"Upload failed: ..."; an exception from credential construction,
client construction, or a non-HTTP upload failure propagates out of
publish unwrapped, its text untouched. -/
theorem C9_only_http_wrapped [DecidableEq α] (c : LogAnalyticsClient)
    (env : AzureEnv α) (results : ResultsBundle α) (aggs : List α) (sf : Bool)
    (hkey : results.aggregate_reports = some aggs)
    (hne : aggs ≠ [])
    (hstream : c.conf.dcr_aggregate_stream ≠ "") :
    (∀ e, env.clientSecretCredential c.conf.tenant_id c.conf.client_id
        c.conf.client_secret = .error e →
      (c.publish_results env results true sf).outcome = .error (.other e)) ∧
    (∀ e, env.clientSecretCredential c.conf.tenant_id c.conf.client_id
        c.conf.client_secret = .ok () →
      env.logsIngestionClient c.conf.dce = .error e →
      (c.publish_results env results true sf).outcome = .error (.other e)) ∧
    (∀ e, env.clientSecretCredential c.conf.tenant_id c.conf.client_id
        c.conf.client_secret = .ok () →
      env.logsIngestionClient c.conf.dce = .ok () →
      env.upload c.conf.dcr_immutable_id c.conf.dcr_aggregate_stream aggs
        = .httpResponseError e →
      (c.publish_results env results true sf).outcome =
        .error (.logAnalytics ("Upload failed: " ++ e))) ∧
    (∀ e, env.clientSecretCredential c.conf.tenant_id c.conf.client_id
        c.conf.client_secret = .ok () →
      env.logsIngestionClient c.conf.dce = .ok () →
      env.upload c.conf.dcr_immutable_id c.conf.dcr_aggregate_stream aggs
        = .otherError e →
      (c.publish_results env results true sf).outcome = .error (.other e)) := by
  have hg : gate aggs c.conf.dcr_aggregate_stream true :=
    ⟨hne, hstream, List.length_pos.mpr hne, rfl⟩
  refine ⟨?_, ?_, ?_, ?_⟩
  · intro e hc
    rw [publish_results_eq_cred_error c env results true sf e hc]
  · intro e hc hl
    rw [publish_results_eq_client_error c env results true sf e hc hl]
  · intro e hc hl hu
    rw [publish_results_eq_upload_http c env results true sf aggs e hc hl hkey hg hu]
  · intro e hc hl hu
    rw [publish_results_eq_upload_other c env results true sf aggs e hc hl hkey hg hu]

/-- Claim C9 witness: a non-HTTP upload failure on the sample publisher
propagates with its own text, not the wrapped form. -/
theorem C9_witness :
    (sampleClient.publish_results (otherFailEnv "oops") ⟨some [0], some []⟩ true true).outcome =
      .error (.other "oops") :=
  (C9_only_http_wrapped sampleClient (otherFailEnv "oops") ⟨some [0], some []⟩ [0] true
    rfl (by decide) (by decide)).2.2.2 "oops" rfl rfl rfl

/-- Claim C10: configuration failure at construction and upload failure
during publish raise the same exception class (`LogAnalyticsException`),
distinguishable only by their messages, which always differ. -/
theorem C10_same_exception_type [DecidableEq α] (a b t d r s f : String)
    (hempty : a = "" ∨ b = "" ∨ t = "" ∨ d = "" ∨ r = "" ∨ s = "" ∨ f = "")
    (c : LogAnalyticsClient) (env : AzureEnv α) (results : ResultsBundle α)
    (aggs : List α) (sf2 : Bool) (e : String)
    (hcred : env.clientSecretCredential c.conf.tenant_id c.conf.client_id
              c.conf.client_secret = .ok ())
    (hcli : env.logsIngestionClient c.conf.dce = .ok ())
    (hkey : results.aggregate_reports = some aggs)
    (hne : aggs ≠ [])
    (hstream : c.conf.dcr_aggregate_stream ≠ "")
    (hup : env.upload c.conf.dcr_immutable_id c.conf.dcr_aggregate_stream aggs
            = .httpResponseError e) :
    ∃ m1 m2,
      LogAnalyticsClient.init a b t d r s f = .error (.logAnalytics m1) ∧
      (c.publish_results env results true sf2).outcome = .error (.logAnalytics m2) ∧
      (PyError.logAnalytics m1).isLogAnalyticsException = true ∧
      (PyError.logAnalytics m2).isLogAnalyticsException = true ∧
      m1 ≠ m2 := by
  have hg : gate aggs c.conf.dcr_aggregate_stream true :=
    ⟨hne, hstream, List.length_pos.mpr hne, rfl⟩
  refine ⟨invalidConfMsg, "Upload failed: " ++ e, ?_, ?_, rfl, rfl,
    invalidConfMsg_ne_upload_msg e⟩
  · simp only [LogAnalyticsClient.init]
    rw [if_pos hempty]
  · rw [publish_results_eq_upload_http c env results true sf2 aggs e hcred hcli hkey hg hup]

/-- Claim C10 witness: the two failures on concrete inputs carry the
same exception class with different messages. -/
theorem C10_witness :
    ∃ m1 m2,
      LogAnalyticsClient.init "" "b" "t" "d" "r" "s" "f" = .error (.logAnalytics m1) ∧
      (sampleClient.publish_results (httpFailEnv "boom") ⟨some [0], some []⟩ true true).outcome =
        .error (.logAnalytics m2) ∧
      (PyError.logAnalytics m1).isLogAnalyticsException = true ∧
      (PyError.logAnalytics m2).isLogAnalyticsException = true ∧
      m1 ≠ m2 :=
  C10_same_exception_type "" "b" "t" "d" "r" "s" "f" (Or.inl rfl)
    sampleClient (httpFailEnv "boom") ⟨some [0], some []⟩ [0] true "boom"
    rfl rfl rfl (by decide) (by decide) rfl
